import Mathlib

/-!
Shallow embedding of the collie-trader decision core.

Prices, PnL and indicator values are modelled as exact rationals (ℚ); the
source uses JS numbers, and every claim under verification is stated by the
spec "under exact rational arithmetic".  Wall-clock fields (`closeTime`,
`openTime`) and presentation-only string fields (`symbol`, `interval`,
`entryReason`, factor strings) are omitted: no claim mentions them.  The
storage side effects (`appendClosedTrade`, `calculateAndSaveStats`) are
environmental and are dropped; the returned `ClosedTrade` value carries all
the observable data.
-/

set_option maxRecDepth 8000

namespace CollieTrader

/-- `TradeModality` enum from types/trade.ts. -/
inductive TradeModality
  | Scalping
  | DayTrading
  | Swing
  | Position
deriving DecidableEq

/-- `TradeDirection` enum from types/trade.ts. -/
inductive TradeDirection
  | LONG
  | SHORT
deriving DecidableEq

/-- `TradeStatus` enum from types/trade.ts. -/
inductive TradeStatus
  | Active
  | TP1Hit
  | TP2Hit
  | TP3Hit
  | SLHit
  | ManuallyClosed
  | Reversed
deriving DecidableEq

/-- The numeric/lifecycle fields of the `Trade` interface (types/trade.ts). -/
structure Trade where
  direction : TradeDirection
  entry : ℚ
  tp1 : ℚ
  tp2 : ℚ
  tp3 : ℚ
  stopLoss : ℚ
  currentSL : ℚ
  status : TradeStatus
  positionSize : ℚ
  tp1Hit : Bool
  tp2Hit : Bool
  tp3Hit : Bool
deriving DecidableEq

/-- `ClosedTrade` extends `Trade` with close data; modelled as the final
trade record (spread `...updated` with its status overwritten) plus the
close fields.  `closeTime` (wall clock) is omitted. -/
structure ClosedTrade where
  base : Trade
  closePrice : ℚ
  pnl : ℚ
  pnlPercent : ℚ
deriving DecidableEq

/-- Return shape of `checkTPSL` in tradeMonitor (unnamed/part_010). -/
structure CheckResult where
  updated : Trade
  closed : Bool
  closedTrade : Option ClosedTrade
deriving DecidableEq

/-- `calculatePnL` from unnamed/part_010: returns `(pnl, pnlPercent)`. -/
def calculatePnL (trade : Trade) (currentPrice : ℚ) : ℚ × ℚ :=
  let isLong := trade.direction = TradeDirection.LONG
  let priceDiff := if isLong then currentPrice - trade.entry else trade.entry - currentPrice
  let pnlPercent := priceDiff / trade.entry * 100
  let pnl := priceDiff / trade.entry * trade.positionSize
  (pnl, pnlPercent)

/-- `checkTPSL` from unnamed/part_010, translated branch for branch:
SL check first (closing at `currentSL`), then TP3 (closing at `tp3` with all
three flags forced), then the non-closing TP2 update, then the non-closing
TP1 update which also moves `currentSL` to the entry price. -/
def checkTPSL (trade : Trade) (currentPrice : ℚ) : CheckResult :=
  let updated := trade
  let isLong := trade.direction = TradeDirection.LONG
  let slHit := if isLong then currentPrice ≤ updated.currentSL else updated.currentSL ≤ currentPrice
  if slHit then
    let p := calculatePnL trade updated.currentSL
    { updated := updated
      closed := true
      closedTrade := some
        { base := { updated with status := TradeStatus.SLHit }
          closePrice := updated.currentSL
          pnl := p.1
          pnlPercent := p.2 } }
  else
    let tp3Hit := if isLong then updated.tp3 ≤ currentPrice else currentPrice ≤ updated.tp3
    if tp3Hit ∧ updated.tp3Hit = false then
      let p := calculatePnL trade updated.tp3
      { updated := updated
        closed := true
        closedTrade := some
          { base := { updated with
                        status := TradeStatus.TP3Hit
                        tp1Hit := true
                        tp2Hit := true
                        tp3Hit := true }
            closePrice := updated.tp3
            pnl := p.1
            pnlPercent := p.2 } }
    else
      let tp2Hit := if isLong then updated.tp2 ≤ currentPrice else currentPrice ≤ updated.tp2
      let updated2 :=
        if tp2Hit ∧ updated.tp2Hit = false then
          { updated with tp2Hit := true, status := TradeStatus.TP2Hit }
        else updated
      let tp1Hit := if isLong then updated2.tp1 ≤ currentPrice else currentPrice ≤ updated2.tp1
      let updated3 :=
        if tp1Hit ∧ updated2.tp1Hit = false then
          { updated2 with
              tp1Hit := true
              status := TradeStatus.TP1Hit
              currentSL := updated2.entry }
        else updated2
      { updated := updated3, closed := false, closedTrade := none }

/-- `manuallyCloseTrade` from unnamed/part_010. -/
def manuallyCloseTrade (trade : Trade) (currentPrice : ℚ) : ClosedTrade :=
  let p := calculatePnL trade currentPrice
  { base := { trade with status := TradeStatus.ManuallyClosed }
    closePrice := currentPrice
    pnl := p.1
    pnlPercent := p.2 }

/-- Price-tick loop: callers feed each tick to `checkTPSL` and replace the
slot with `updated` while the trade stays open; a closing tick ends the
trade's life (and `checkTPSL` returns the pre-close state as `updated`). -/
def runTicks (trade : Trade) : List ℚ → Trade
  | [] => trade
  | p :: ps =>
      let r := checkTPSL trade p
      if r.closed then r.updated else runTicks r.updated ps

/-- The take-profit breach condition of `checkTPSL` for one level
(long: price reaches the level from below; short: from above). -/
def tpBreached (t : Trade) (level price : ℚ) : Prop :=
  if t.direction = TradeDirection.LONG then level ≤ price else price ≤ level

/-- The stop-loss breach condition of `checkTPSL` (against `currentSL`). -/
def slBreached (t : Trade) (price : ℚ) : Prop :=
  if t.direction = TradeDirection.LONG then price ≤ t.currentSL else t.currentSL ≤ price

instance (t : Trade) (level price : ℚ) : Decidable (tpBreached t level price) := by
  unfold tpBreached; infer_instance

instance (t : Trade) (price : ℚ) : Decidable (slBreached t price) := by
  unfold slBreached; infer_instance

/-! ### Candle data and SMC indicators (smcIndicators.ts) -/

/-- `CandleData` from smcIndicators.ts.  The `time` field is omitted (no
indicator reads it); the source's `open` field is named `opn` because
`open` is reserved in Lean. -/
structure CandleData where
  opn : ℚ
  high : ℚ
  low : ℚ
  close : ℚ
  volume : ℚ
deriving DecidableEq

instance : Inhabited CandleData := ⟨⟨0, 0, 0, 0, 0⟩⟩

/-- Direction tag of a structural signal (`'bullish' | 'bearish'`). -/
inductive SigDir
  | bullish
  | bearish
deriving DecidableEq

/-- JS `arr.slice(-n)`: the last `n` elements (the whole list when shorter). -/
def lastN (n : ℕ) (l : List α) : List α := l.drop (l.length - n)

/-- The candidate swing triples `(i, recent[i-1], recent[i], recent[i+1])`
for `i` ranging over `1 .. recent.length - 2` in increasing order, as walked
by the swing loops of `detectBOS` and `detectCHOCH`. -/
def swingTriples (recent : List CandleData) :
    List (ℕ × CandleData × CandleData × CandleData) :=
  (((recent.zip (recent.drop 1)).zip (recent.drop 2)).enum).map
    (fun p => (p.1 + 1, p.2.1.1, p.2.1.2, p.2.2))

/-- The running strict-maximum fold of `detectBOS` over swing highs:
`lastSwingHigh` starts at `-Infinity` (modelled by `none`) and a candidate
replaces it only when strictly higher, keeping `(lastSwingHigh, swingHighIdx)`. -/
def bosMaxHigh (trips : List (ℕ × CandleData × CandleData × CandleData)) :
    Option (ℚ × ℕ) :=
  trips.foldl
    (fun acc t =>
      match t with
      | (i, a, b, c) =>
        if a.high < b.high ∧ c.high < b.high then
          match acc with
          | none => some (b.high, i)
          | some hj => if hj.1 < b.high then some (b.high, i) else some hj
        else acc)
    none

/-- The running strict-minimum fold of `detectBOS` over swing lows. -/
def bosMinLow (trips : List (ℕ × CandleData × CandleData × CandleData)) :
    Option (ℚ × ℕ) :=
  trips.foldl
    (fun acc t =>
      match t with
      | (i, a, b, c) =>
        if b.low < a.low ∧ b.low < c.low then
          match acc with
          | none => some (b.low, i)
          | some hj => if b.low < hj.1 then some (b.low, i) else some hj
        else acc)
    none

/-- `BOSResult` from smcIndicators.ts, with `direction: null` as `none`
and the `-1` index sentinel kept as an integer. -/
structure BOSResult where
  detected : Bool
  direction : Option SigDir
  level : ℚ
  index : ℤ
deriving DecidableEq

/-- `detectBOS` from smcIndicators.ts: needs ≥ 10 candles, scans the last
20 for the highest swing high / lowest swing low, then reports a break of
structure when the final close exceeds that swing level (bullish checked
first). -/
def detectBOS (candles : List CandleData) : BOSResult :=
  if candles.length < 10 then
    { detected := false, direction := none, level := 0, index := -1 }
  else
    let recent := lastN 20 candles
    let trips := swingTriples recent
    let lastCandle := recent.getLast?.getD default
    match bosMaxHigh trips with
    | some hj =>
        if hj.1 < lastCandle.close then
          { detected := true, direction := some SigDir.bullish, level := hj.1, index := (hj.2 : ℤ) }
        else
          match bosMinLow trips with
          | some lj =>
              if lastCandle.close < lj.1 then
                { detected := true, direction := some SigDir.bearish, level := lj.1, index := (lj.2 : ℤ) }
              else { detected := false, direction := none, level := 0, index := -1 }
          | none => { detected := false, direction := none, level := 0, index := -1 }
    | none =>
        match bosMinLow trips with
        | some lj =>
            if lastCandle.close < lj.1 then
              { detected := true, direction := some SigDir.bearish, level := lj.1, index := (lj.2 : ℤ) }
            else { detected := false, direction := none, level := 0, index := -1 }
        | none => { detected := false, direction := none, level := 0, index := -1 }

/-- The descending index list `[hi, hi-1, ..., hi-n+1]` walked by the
`for (let i = hi; i >= lo; i--)` loops; `n` is the trip count. -/
def downFromAux : ℕ → ℕ → List ℕ
  | 0, _ => []
  | n + 1, hi => hi :: downFromAux n (hi - 1)

/-- Indices from `hi` down to `lo` inclusive (empty when `hi < lo`). -/
def downFrom (hi lo : ℕ) : List ℕ := downFromAux (hi + 1 - lo) hi

/-- `FVGResult` from smcIndicators.ts. -/
structure FVGResult where
  detected : Bool
  direction : Option SigDir
  top : ℚ
  bottom : ℚ
  midpoint : ℚ
deriving DecidableEq

/-- The per-index gap test of `detectFVG`: a bullish fair-value gap when
`candles[i+2].low > candles[i].high`, a bearish one when
`candles[i+2].high < candles[i].low`. -/
def fvgAt (candles : List CandleData) (i : ℕ) : Option FVGResult :=
  let c1 := candles.getD i default
  let c3 := candles.getD (i + 2) default
  if c1.high < c3.low then
    some { detected := true, direction := some SigDir.bullish,
           top := c3.low, bottom := c1.high, midpoint := (c3.low + c1.high) / 2 }
  else if c3.high < c1.low then
    some { detected := true, direction := some SigDir.bearish,
           top := c1.low, bottom := c3.high, midpoint := (c1.low + c3.high) / 2 }
  else none

/-- `detectFVG` from smcIndicators.ts: needs ≥ 3 candles, scans `i` from
`length - 3` down to `max(0, length - 15)` and returns the first gap found. -/
def detectFVG (candles : List CandleData) : FVGResult :=
  if candles.length < 3 then
    { detected := false, direction := none, top := 0, bottom := 0, midpoint := 0 }
  else
    ((downFrom (candles.length - 3) (candles.length - 15)).findSome?
        (fvgAt candles)).getD
      { detected := false, direction := none, top := 0, bottom := 0, midpoint := 0 }

/-- `OrderBlockResult` from smcIndicators.ts. -/
structure OrderBlockResult where
  detected : Bool
  direction : Option SigDir
  top : ℚ
  bottom : ℚ
  midpoint : ℚ
deriving DecidableEq

/-- The per-index test of `detectOrderBlocks`: candle `recent[i]` must be
strong (body > 60% of range); a bullish order block is a bearish strong
candle whose successor is bullish and closes above its high, a bearish one
the mirror case closing below its low. -/
def isOrderBlockAt (recent : List CandleData) (i : ℕ) : Option OrderBlockResult :=
  let c := recent.getD i default
  let next := recent.getD (i + 1) default
  let bodySize := |c.close - c.opn|
  let totalRange := c.high - c.low
  if ¬(totalRange * (3 / 5) < bodySize) then none
  else if c.close < c.opn ∧ next.opn < next.close ∧ c.high < next.close then
    some { detected := true, direction := some SigDir.bullish,
           top := c.opn, bottom := c.close, midpoint := (c.opn + c.close) / 2 }
  else if c.opn < c.close ∧ next.close < next.opn ∧ next.close < c.low then
    some { detected := true, direction := some SigDir.bearish,
           top := c.close, bottom := c.opn, midpoint := (c.close + c.opn) / 2 }
  else none

/-- `detectOrderBlocks` from smcIndicators.ts: needs ≥ 5 candles, takes the
last 20, iterates `i` from `recent.length - 4` down to `1` and returns on
the first qualifying index. -/
def detectOrderBlocks (candles : List CandleData) : OrderBlockResult :=
  if candles.length < 5 then
    { detected := false, direction := none, top := 0, bottom := 0, midpoint := 0 }
  else
    let recent := lastN 20 candles
    ((downFrom (recent.length - 4) 1).findSome? (isOrderBlockAt recent)).getD
      { detected := false, direction := none, top := 0, bottom := 0, midpoint := 0 }

/-- The gains/losses accumulation of `calculateRSI` over consecutive close
diffs: positive diffs add to gains, the rest add their absolute value to
losses. -/
def gainsLosses : List ℚ → ℚ × ℚ
  | x :: y :: rest =>
      let d := y - x
      let gl := gainsLosses (y :: rest)
      if 0 < d then (gl.1 + d, gl.2) else (gl.1, gl.2 + |d|)
  | _ => (0, 0)

/-- `calculateRSI` from smcIndicators.ts: returns the neutral 50 below
`period + 1` candles, 100 when there are no losses, else the standard
`100 - 100 / (1 + rs)`. -/
def calculateRSI (candles : List CandleData) (period : ℕ) : ℚ :=
  if candles.length < period + 1 then 50
  else
    let closes := (lastN (period + 1) candles).map CandleData.close
    let gl := gainsLosses closes
    let avgGain := gl.1 / (period : ℚ)
    let avgLoss := gl.2 / (period : ℚ)
    if avgLoss = 0 then 100
    else 100 - 100 / (1 + avgGain / avgLoss)

/-- The true-range sum of `calculateATR` over consecutive candle pairs. -/
def trSum : List CandleData → ℚ
  | p :: c :: rest =>
      max (c.high - c.low) (max |c.high - p.close| |c.low - p.close|) + trSum (c :: rest)
  | _ => 0

/-- `calculateATR` from smcIndicators.ts: returns the 0 sentinel below
`period + 1` candles, else the true-range sum over the last `period + 1`
candles divided by `period`. -/
def calculateATR (candles : List CandleData) (period : ℕ) : ℚ :=
  if candles.length < period + 1 then 0
  else trSum (lastN (period + 1) candles) / (period : ℚ)

/-- `CHOCHResult` shape from smcIndicators.ts (`detectCHOCH` return). -/
structure CHOCHResult where
  detected : Bool
  direction : Option SigDir
  level : ℚ
deriving DecidableEq

/-- `detectCHOCH` from smcIndicators.ts: needs ≥ 15 candles; collects the
swing highs and lows of the last 15 candles in scan order, then reports a
bearish change of character when the last swing low undercuts the previous
one and the final close breaks it (checked first), else the bullish mirror. -/
def detectCHOCH (candles : List CandleData) : CHOCHResult :=
  if candles.length < 15 then { detected := false, direction := none, level := 0 }
  else
    let recent := lastN 15 candles
    let trips := swingTriples recent
    let swingHighs := trips.filterMap
      (fun t => if t.2.1.high < t.2.2.1.high ∧ t.2.2.2.high < t.2.2.1.high
                then some t.2.2.1.high else none)
    let swingLows := trips.filterMap
      (fun t => if t.2.2.1.low < t.2.1.low ∧ t.2.2.1.low < t.2.2.2.low
                then some t.2.2.1.low else none)
    let lastCandle := recent.getLast?.getD default
    match swingLows.reverse with
    | lastLow :: prevLow :: _ =>
        if lastLow < prevLow ∧ lastCandle.close < lastLow then
          { detected := true, direction := some SigDir.bearish, level := lastLow }
        else
          match swingHighs.reverse with
          | lastHigh :: prevHigh :: _ =>
              if prevHigh < lastHigh ∧ lastHigh < lastCandle.close then
                { detected := true, direction := some SigDir.bullish, level := lastHigh }
              else { detected := false, direction := none, level := 0 }
          | _ => { detected := false, direction := none, level := 0 }
    | _ =>
        match swingHighs.reverse with
        | lastHigh :: prevHigh :: _ =>
            if prevHigh < lastHigh ∧ lastHigh < lastCandle.close then
              { detected := true, direction := some SigDir.bullish, level := lastHigh }
            else { detected := false, direction := none, level := 0 }
        | _ => { detected := false, direction := none, level := 0 }

/-! ### Trade setup synthesizers

Three source variants share one candle-driven core after the network fetch:
`generateTradeSetup` (unnamed/part_002, no rejection guard),
`buildTradeSetupFromSymbol` (aiTradeSelection.ts, adds `rrRatio < 1.5 →
null`), and `buildTradeSetupForSymbol` (trendForecaster.ts, modality ATR
multipliers with a risk-multiple override).  Each is modelled on the parsed
candle list; the `getKlines` fetch and the catch-all `try` are environmental.
The direction/entry selection block is textually identical in all three
sources, so it is factored into `selectDirectionEntry`. -/

/-- Numeric fields of the `TradeSetup` interface (types/trade.ts); the
string fields (`symbol`, `interval`, `entryReason`, factors) are omitted. -/
structure TradeSetup where
  direction : TradeDirection
  entry : ℚ
  tp1 : ℚ
  tp2 : ℚ
  tp3 : ℚ
  stopLoss : ℚ
  modality : TradeModality
  rrRatio : ℚ
deriving DecidableEq

instance : Inhabited TradeSetup :=
  ⟨⟨TradeDirection.LONG, 0, 0, 0, 0, 0, TradeModality.Scalping, 0⟩⟩

/-- The shared direction/entry selection chain: BOS direction first, then
FVG (entry snapped to its midpoint), then order block (entry snapped to its
midpoint), then the trend-continuation fallback comparing the last of the
final 10 closes against the first. -/
def selectDirectionEntry (candles : List CandleData) (currentPrice : ℚ) :
    TradeDirection × ℚ :=
  let bos := detectBOS candles
  let fvg := detectFVG candles
  let ob := detectOrderBlocks candles
  if bos.detected ∧ bos.direction = some SigDir.bullish then
    (TradeDirection.LONG, currentPrice)
  else if bos.detected ∧ bos.direction = some SigDir.bearish then
    (TradeDirection.SHORT, currentPrice)
  else if fvg.detected ∧ fvg.direction = some SigDir.bullish then
    (TradeDirection.LONG, fvg.midpoint)
  else if fvg.detected ∧ fvg.direction = some SigDir.bearish then
    (TradeDirection.SHORT, fvg.midpoint)
  else if ob.detected ∧ ob.direction = some SigDir.bullish then
    (TradeDirection.LONG, ob.midpoint)
  else if ob.detected ∧ ob.direction = some SigDir.bearish then
    (TradeDirection.SHORT, ob.midpoint)
  else
    let recentCloses := (lastN 10 candles).map CandleData.close
    let firstClose := recentCloses.getD 0 0
    let lastClose := recentCloses.getD (recentCloses.length - 1) 0
    if firstClose < lastClose then (TradeDirection.LONG, currentPrice)
    else (TradeDirection.SHORT, currentPrice)

/-- The stop/target placement and `rrRatio` computation of
`generateTradeSetup` (unnamed/part_002), i.e. the code after the entry
snap, as a function of the selected direction, the final entry price and
the ATR: stop at 1.5 ATR, tp1/tp2/tp3 at 1.5/2.5/4 stop-distances, and
`rrRatio = |tp2 - entry| / |entry - stopLoss|`. -/
def smcSetupMath (modality : TradeModality) (direction : TradeDirection)
    (entryPrice atr : ℚ) : TradeSetup :=
  let slDistance := atr * (3 / 2)
  let stopLoss :=
    if direction = TradeDirection.LONG then entryPrice - slDistance
    else entryPrice + slDistance
  let tp1 :=
    if direction = TradeDirection.LONG then entryPrice + slDistance * (3 / 2)
    else entryPrice - slDistance * (3 / 2)
  let tp2 :=
    if direction = TradeDirection.LONG then entryPrice + slDistance * (5 / 2)
    else entryPrice - slDistance * (5 / 2)
  let tp3 :=
    if direction = TradeDirection.LONG then entryPrice + slDistance * 4
    else entryPrice - slDistance * 4
  let rrRatio := |tp2 - entryPrice| / |entryPrice - stopLoss|
  { direction := direction, entry := entryPrice, tp1 := tp1, tp2 := tp2,
    tp3 := tp3, stopLoss := stopLoss, modality := modality, rrRatio := rrRatio }

/-- `generateTradeSetup` from unnamed/part_002 (candle-driven core): needs
≥ 20 candles and ATR ≠ 0; picks direction/entry, snaps the entry back to
the current price when it deviates by more than 2%, then applies the
stop/target math of `smcSetupMath`. -/
def generateTradeSetup (modality : TradeModality) (candles : List CandleData) :
    Option TradeSetup :=
  if candles.length < 20 then none
  else
    let currentPrice := (candles.getLast?.getD default).close
    let atr := calculateATR candles 14
    if atr = 0 then none
    else
      let de := selectDirectionEntry candles currentPrice
      let entryPrice :=
        if 1 / 50 < |de.2 - currentPrice| / currentPrice then currentPrice else de.2
      some (smcSetupMath modality de.1 entryPrice atr)

/-- `buildTradeSetupFromSymbol` from aiTradeSelection.ts (candle-driven
core).  Its body is textually identical to `generateTradeSetup` of
unnamed/part_002 except for one added rejection guard
(`if (rrRatio < 1.5) return null`) before the return, so it is defined as
that function followed by the guard. -/
def buildTradeSetupFromSymbol (modality : TradeModality)
    (candles : List CandleData) : Option TradeSetup :=
  match generateTradeSetup modality candles with
  | some s => if s.rrRatio < 3 / 2 then none else some s
  | none => none

/-- The per-modality multiplier record of `getATRMultiplier`
(trendForecaster.ts). -/
structure ATRMult where
  sl : ℚ
  tp1 : ℚ
  tp2 : ℚ
  tp3 : ℚ
deriving DecidableEq

/-- `getATRMultiplier` from trendForecaster.ts. -/
def getATRMultiplier (modality : TradeModality) : ATRMult :=
  match modality with
  | TradeModality.Scalping => { sl := 1, tp1 := 2, tp2 := 3, tp3 := 9 / 2 }
  | TradeModality.DayTrading => { sl := 3 / 2, tp1 := 3, tp2 := 5, tp3 := 8 }
  | TradeModality.Swing => { sl := 2, tp1 := 4, tp2 := 7, tp3 := 12 }
  | TradeModality.Position => { sl := 3, tp1 := 6, tp2 := 10, tp3 := 18 }

/-- The stop/target placement of `buildTradeSetupForSymbol`
(trendForecaster.ts), i.e. the code after the entry snap: modality-specific
ATR multiples for stop and targets, `rrRatio` at tp1 (0 when risk is 0), a
risk-multiple override of the targets (2×/3×/4.5× the risk) when that ratio
is below 2, and a final recomputation of the returned `rrRatio` field from
the (possibly overridden) tp1. -/
def trendSetupMath (modality : TradeModality) (direction : TradeDirection)
    (entryPrice atr : ℚ) : TradeSetup :=
  let m := getATRMultiplier modality
  let stopLoss :=
    if direction = TradeDirection.LONG then entryPrice - atr * m.sl
    else entryPrice + atr * m.sl
  let tp1 :=
    if direction = TradeDirection.LONG then entryPrice + atr * m.tp1
    else entryPrice - atr * m.tp1
  let tp2 :=
    if direction = TradeDirection.LONG then entryPrice + atr * m.tp2
    else entryPrice - atr * m.tp2
  let tp3 :=
    if direction = TradeDirection.LONG then entryPrice + atr * m.tp3
    else entryPrice - atr * m.tp3
  let risk := |entryPrice - stopLoss|
  let reward1 := |tp1 - entryPrice|
  let rrRatio := if 0 < risk then reward1 / risk else 0
  let tps :=
    if rrRatio < 2 then
      if direction = TradeDirection.LONG then
        (entryPrice + risk * 2, entryPrice + risk * 3, entryPrice + risk * (9 / 2))
      else
        (entryPrice - risk * 2, entryPrice - risk * 3, entryPrice - risk * (9 / 2))
    else (tp1, tp2, tp3)
  { direction := direction, entry := entryPrice, tp1 := tps.1,
    tp2 := tps.2.1, tp3 := tps.2.2, stopLoss := stopLoss,
    modality := modality,
    rrRatio := |tps.1 - entryPrice| / |entryPrice - stopLoss| }

/-- `buildTradeSetupForSymbol` from trendForecaster.ts (candle-driven
core): same guards, direction/entry selection and entry snap, then the
stop/target math of `trendSetupMath`. -/
def buildTradeSetupForSymbol (modality : TradeModality)
    (candles : List CandleData) : Option TradeSetup :=
  if candles.length < 20 then none
  else
    let currentPrice := (candles.getLast?.getD default).close
    let atr := calculateATR candles 14
    if atr = 0 then none
    else
      let de := selectDirectionEntry candles currentPrice
      let entryPrice :=
        if 1 / 50 < |de.2 - currentPrice| / currentPrice then currentPrice else de.2
      some (trendSetupMath modality de.1 entryPrice atr)

/-! ### Symbol ranking (pairScoringEngine.ts) -/

/-- The fields of `ScoredSymbol` the ranker reads (factor strings omitted). -/
structure ScoredSymbol where
  symbol : String
  score : ℚ
deriving DecidableEq

/-- Stable descending insertion used to model the JS engine's stable
`sort((a, b) => b.score - a.score)`: an element is placed before the first
strictly lower score, and after equal scores already present, which is
exactly the stable descending order. -/
def insertDesc (x : ScoredSymbol) : List ScoredSymbol → List ScoredSymbol
  | [] => [x]
  | y :: ys => if y.score ≤ x.score then x :: y :: ys else y :: insertDesc x ys

/-- Stable descending sort (see `insertDesc`); elements earlier in the
input are inserted in front of later elements of equal score. -/
def sortDesc : List ScoredSymbol → List ScoredSymbol
  | [] => []
  | x :: xs => insertDesc x (sortDesc xs)

/-- `scoreSymbolsForModality` from pairScoringEngine.ts, with the network
scoring step abstracted as `score : String → Option ScoredSymbol` (`none`
models a rejected promise or a `null` score).  The source walks the symbols
in sequential batches and `Promise.allSettled` preserves order within each
batch while dropping failures, so the accumulated `results` list is the
input-order `filterMap`; the final step is the stable descending sort
followed by `slice(0, limit)`. -/
def scoreSymbolsForModality (score : String → Option ScoredSymbol)
    (symbols : List String) (limit : ℕ) : List ScoredSymbol :=
  (sortDesc (symbols.filterMap score)).take limit

/-! ### Concrete inputs used by scenarios, witnesses and counterexamples -/

/-- The LONG trade of the spec's scenarios 2 and 3: entry 100, stop 95,
tp1 110 (tp2/tp3 above the scenario's tick prices), freshly opened. -/
def scenarioTrade : Trade :=
  { direction := TradeDirection.LONG, entry := 100, tp1 := 110, tp2 := 120,
    tp3 := 130, stopLoss := 95, currentSL := 95, status := TradeStatus.Active,
    positionSize := 1000, tp1Hit := false, tp2Hit := false, tp3Hit := false }

/-- `scenarioTrade` after its first target was hit: `tp1Hit` set and the
stop already moved to breakeven. -/
def tradeAfterTP1 : Trade :=
  { scenarioTrade with
    tp1Hit := true
    currentSL := 100
    status := TradeStatus.TP1Hit }

/-! ### Trade lifecycle theorems -/

/-- Claim C1: `checkTPSL` evaluates in fixed priority order — (a) a stop
breach against `currentSL` closes at the `currentSL` price with status
`SLHit` and PnL computed there; (b) otherwise a fresh tp3 breach closes at
tp3 with status `TP3Hit` and all three hit flags forced true; (c) otherwise
a fresh tp2 breach sets `tp2Hit` and status `TP2Hit` without closing;
(d) otherwise a fresh tp1 breach sets `tp1Hit`, status `TP1Hit` and moves
`currentSL` to the entry price without closing.  In particular the spec's
scenario trade (LONG, entry 100, stop 95, tp1 110) at a 111 tick gets
`tp1Hit`, `currentSL = 100` and status `TP1Hit`, and a subsequent 94 tick
closes it with status `SLHit`, close price 100 and PnL 0. -/
theorem checkTPSL_priority_order :
    (∀ (t : Trade) (p : ℚ),
      (slBreached t p →
        (checkTPSL t p).closed = true ∧
        ∃ ct, (checkTPSL t p).closedTrade = some ct ∧
          ct.base.status = TradeStatus.SLHit ∧ ct.closePrice = t.currentSL ∧
          ct.pnl = (calculatePnL t t.currentSL).1) ∧
      (¬ slBreached t p → tpBreached t t.tp3 p → t.tp3Hit = false →
        (checkTPSL t p).closed = true ∧
        ∃ ct, (checkTPSL t p).closedTrade = some ct ∧
          ct.base.status = TradeStatus.TP3Hit ∧ ct.base.tp1Hit = true ∧
          ct.base.tp2Hit = true ∧ ct.base.tp3Hit = true ∧
          ct.closePrice = t.tp3 ∧ ct.pnl = (calculatePnL t t.tp3).1) ∧
      (¬ slBreached t p → (tpBreached t t.tp3 p → t.tp3Hit = true) →
        tpBreached t t.tp2 p → t.tp2Hit = false →
        (checkTPSL t p).closed = false ∧
        (checkTPSL t p).updated.tp2Hit = true ∧
        (¬ (tpBreached t t.tp1 p ∧ t.tp1Hit = false) →
          (checkTPSL t p).updated.status = TradeStatus.TP2Hit)) ∧
      (¬ slBreached t p → (tpBreached t t.tp3 p → t.tp3Hit = true) →
        tpBreached t t.tp1 p → t.tp1Hit = false →
        (checkTPSL t p).closed = false ∧
        (checkTPSL t p).updated.tp1Hit = true ∧
        (checkTPSL t p).updated.status = TradeStatus.TP1Hit ∧
        (checkTPSL t p).updated.currentSL = t.entry)) ∧
    ((checkTPSL scenarioTrade 111).closed = false ∧
     (checkTPSL scenarioTrade 111).updated.tp1Hit = true ∧
     (checkTPSL scenarioTrade 111).updated.currentSL = 100 ∧
     (checkTPSL scenarioTrade 111).updated.status = TradeStatus.TP1Hit ∧
     (checkTPSL (checkTPSL scenarioTrade 111).updated 94).closed = true ∧
     ∃ ct, (checkTPSL (checkTPSL scenarioTrade 111).updated 94).closedTrade = some ct ∧
       ct.base.status = TradeStatus.SLHit ∧ ct.closePrice = 100 ∧ ct.pnl = 0) := by
  constructor
  · intro t p
    refine ⟨fun hsl => ?_, fun hsl h3 h3f => ?_, fun hsl h3 h2 h2f => ?_,
            fun hsl h3 h1 h1f => ?_⟩
    · simp only [checkTPSL]
      split_ifs <;> first
        | exact ⟨rfl, ⟨_, rfl, rfl, rfl, rfl⟩⟩
        | (exfalso; simp_all [slBreached])
    · simp only [checkTPSL]
      split_ifs <;> first
        | exact ⟨rfl, ⟨_, rfl, rfl, rfl, rfl, rfl, rfl, rfl⟩⟩
        | (exfalso; simp_all [slBreached, tpBreached])
    · simp only [checkTPSL]
      split_ifs <;> first
        | exact ⟨rfl, rfl, fun h => rfl⟩
        | (refine ⟨rfl, rfl, fun h => ?_⟩; exfalso; simp_all [tpBreached])
        | (exfalso; simp_all [slBreached, tpBreached])
    · simp only [checkTPSL]
      split_ifs <;> first
        | exact ⟨rfl, rfl, rfl, rfl⟩
        | (exfalso; simp_all [slBreached, tpBreached])
  · exact ⟨by decide, by decide, by decide, by decide, by decide,
      ⟨(checkTPSL (checkTPSL scenarioTrade 111).updated 94).closedTrade.getD
          (manuallyCloseTrade scenarioTrade 0),
        by with_unfolding_all decide, by decide, by decide,
        by with_unfolding_all decide⟩⟩

/-- Witness for C1: the stop-breach case applied to the scenario trade at a
tick of 90. -/
theorem checkTPSL_priority_order_witness :
    slBreached scenarioTrade 90 ∧
    ((checkTPSL scenarioTrade 90).closed = true ∧
     ∃ ct, (checkTPSL scenarioTrade 90).closedTrade = some ct ∧
       ct.base.status = TradeStatus.SLHit ∧
       ct.closePrice = scenarioTrade.currentSL ∧
       ct.pnl = (calculatePnL scenarioTrade scenarioTrade.currentSL).1) :=
  ⟨by decide, (checkTPSL_priority_order.1 scenarioTrade 90).1 (by decide)⟩

/-- Single-tick facts about `checkTPSL` shared by the sequence-level
invariants: a closing tick returns the trade unchanged in `updated`, the
entry never changes, the three hit flags never drop from true to false and
the breakeven invariant (`tp1Hit → currentSL = entry`) is preserved. -/
theorem checkTPSL_step (t : Trade) (p : ℚ) :
    ((checkTPSL t p).closed = true → (checkTPSL t p).updated = t) ∧
    (checkTPSL t p).updated.entry = t.entry ∧
    (t.tp1Hit = true → (checkTPSL t p).updated.tp1Hit = true) ∧
    (t.tp2Hit = true → (checkTPSL t p).updated.tp2Hit = true) ∧
    (t.tp3Hit = true → (checkTPSL t p).updated.tp3Hit = true) ∧
    ((t.tp1Hit = true → t.currentSL = t.entry) →
      (checkTPSL t p).updated.tp1Hit = true →
      (checkTPSL t p).updated.currentSL = t.entry) := by
  simp only [checkTPSL]
  split_ifs <;>
    refine ⟨fun hcl => ?_, rfl, fun h => ?_, fun h => ?_, fun h => ?_, fun hi h1 => ?_⟩ <;>
    simp_all

/-- Claim C2: across any tick sequence the hit flags `tp1Hit`, `tp2Hit`,
`tp3Hit` are monotone (never revert from true to false in any returned
state), the entry is unchanged, and once `tp1Hit` holds with the stop at
breakeven the returned state keeps `currentSL` equal to the entry for the
remainder of the trade's life. -/
theorem tpsl_flags_monotone :
    ∀ (t : Trade) (ps : List ℚ),
    (runTicks t ps).entry = t.entry ∧
    (t.tp1Hit = true → (runTicks t ps).tp1Hit = true) ∧
    (t.tp2Hit = true → (runTicks t ps).tp2Hit = true) ∧
    (t.tp3Hit = true → (runTicks t ps).tp3Hit = true) ∧
    ((t.tp1Hit = true → t.currentSL = t.entry) →
      (runTicks t ps).tp1Hit = true →
      (runTicks t ps).currentSL = (runTicks t ps).entry) := by
  intro t ps
  induction ps generalizing t with
  | nil => exact ⟨rfl, fun h => h, fun h => h, fun h => h, fun hi h1 => hi h1⟩
  | cons p ps ih =>
      simp only [runTicks]
      obtain ⟨hcl, hent, h1, h2, h3, hinv⟩ := checkTPSL_step t p
      split_ifs with hc
      · rw [hcl hc]
        exact ⟨rfl, fun h => h, fun h => h, fun h => h, fun hi hh => hi hh⟩
      · obtain ⟨ient, i1, i2, i3, iinv⟩ := ih ((checkTPSL t p).updated)
        refine ⟨ient.trans hent, fun h => i1 (h1 h), fun h => i2 (h2 h),
                fun h => i3 (h3 h), ?_⟩
        intro hi hh
        exact iinv (fun hx => (hinv hi hx).trans hent.symm) hh

/-- Witness for C2: the post-TP1 scenario trade over the ticks 94 and 105
keeps `tp1Hit` and the breakeven stop. -/
theorem tpsl_flags_monotone_witness :
    (runTicks tradeAfterTP1 [94, 105]).tp1Hit = true ∧
    (runTicks tradeAfterTP1 [94, 105]).currentSL =
      (runTicks tradeAfterTP1 [94, 105]).entry :=
  ⟨(tpsl_flags_monotone tradeAfterTP1 [94, 105]).2.1 (by decide),
   (tpsl_flags_monotone tradeAfterTP1 [94, 105]).2.2.2.2 (by decide)
     ((tpsl_flags_monotone tradeAfterTP1 [94, 105]).2.1 (by decide))⟩

/-- Claim C7: the shared PnL formula — `pnlPercent` is
`(price - entry)/entry*100` for LONG and its negation for SHORT, `pnl` is
`pnlPercent/100 * positionSize`, `manuallyCloseTrade` records exactly the
shared formula's values at the close price, and every closing path of
`checkTPSL` records the shared formula's values at its own exit price. -/
theorem pnl_formula_shared :
    ∀ (t : Trade) (price : ℚ),
    (t.direction = TradeDirection.LONG →
      (calculatePnL t price).2 = (price - t.entry) / t.entry * 100) ∧
    (t.direction = TradeDirection.SHORT →
      (calculatePnL t price).2 = -((price - t.entry) / t.entry * 100)) ∧
    (calculatePnL t price).1 = (calculatePnL t price).2 / 100 * t.positionSize ∧
    (manuallyCloseTrade t price).base.status = TradeStatus.ManuallyClosed ∧
    (manuallyCloseTrade t price).closePrice = price ∧
    (manuallyCloseTrade t price).pnl = (calculatePnL t price).1 ∧
    (manuallyCloseTrade t price).pnlPercent = (calculatePnL t price).2 ∧
    (∀ ct, (checkTPSL t price).closedTrade = some ct →
      ct.pnl = (calculatePnL t ct.closePrice).1 ∧
      ct.pnlPercent = (calculatePnL t ct.closePrice).2) := by
  intro t price
  refine ⟨fun h => ?_, fun h => ?_, ?_, rfl, rfl, rfl, rfl, fun ct hct => ?_⟩
  · simp [calculatePnL, h]
  · simp only [calculatePnL, h]
    rw [if_neg (by simp)]
    ring
  · simp only [calculatePnL]
    split_ifs <;> ring
  · simp only [checkTPSL] at hct
    split_ifs at hct <;> simp only [Option.some.injEq] at hct <;>
      subst hct <;> exact ⟨rfl, rfl⟩

/-- Witness for C7: the direction-specific percent formulas evaluated for a
LONG trade (the scenario trade) and its SHORT mirror at price 105. -/
theorem pnl_formula_shared_witness :
    (calculatePnL scenarioTrade 105).2 =
      (105 - scenarioTrade.entry) / scenarioTrade.entry * 100 ∧
    (calculatePnL { scenarioTrade with direction := TradeDirection.SHORT } 105).2 =
      -((105 - scenarioTrade.entry) / scenarioTrade.entry * 100) :=
  ⟨(pnl_formula_shared scenarioTrade 105).1 (by decide),
   (pnl_formula_shared { scenarioTrade with direction := TradeDirection.SHORT } 105).2.1
     (by decide)⟩

/-- Claim C9: a single tick that freshly breaches both tp1 and tp2 but
neither tp3 nor the stop leaves the trade open with both `tp1Hit` and
`tp2Hit` set, and the resulting status is `TP1Hit` (not `TP2Hit`) because
the tp1 check runs after the tp2 check and overwrites the status. -/
theorem checkTPSL_tp1_overwrites_tp2_status :
    ∀ (t : Trade) (p : ℚ),
    t.tp1Hit = false → t.tp2Hit = false →
    ¬ slBreached t p → ¬ tpBreached t t.tp3 p →
    tpBreached t t.tp1 p → tpBreached t t.tp2 p →
    (checkTPSL t p).closed = false ∧
    (checkTPSL t p).updated.tp1Hit = true ∧
    (checkTPSL t p).updated.tp2Hit = true ∧
    (checkTPSL t p).updated.status = TradeStatus.TP1Hit := by
  intro t p h1f h2f hsl h3 h1 h2
  simp only [checkTPSL]
  split_ifs <;> first
    | exact ⟨rfl, rfl, rfl, rfl⟩
    | (exfalso; simp_all [slBreached, tpBreached])

/-- Witness for C9: the scenario trade at a tick of 121 (past tp1 = 110 and
tp2 = 120, below tp3 = 130, above the stop). -/
theorem checkTPSL_tp1_overwrites_tp2_status_witness :
    (checkTPSL scenarioTrade 121).closed = false ∧
    (checkTPSL scenarioTrade 121).updated.tp1Hit = true ∧
    (checkTPSL scenarioTrade 121).updated.tp2Hit = true ∧
    (checkTPSL scenarioTrade 121).updated.status = TradeStatus.TP1Hit :=
  checkTPSL_tp1_overwrites_tp2_status scenarioTrade 121 rfl rfl
    (by decide) (by decide) (by decide) (by decide)

/-! ### Indicator sentinel theorems -/

/-- A zero-range candle (used to exhibit ATR = 0 on a full-length window). -/
def flatCandle : CandleData := ⟨100, 100, 100, 100, 1⟩

/-- Twenty zero-range candles: long enough for the synthesizer, ATR 0. -/
def zeroRange20 : List CandleData := List.replicate 20 flatCandle

/-- Claim C4: below its minimum window every indicator returns its neutral
sentinel — RSI 50 below 15 candles, ATR exactly 0 below 15 candles, each
structure detector `detected = false` below its window — and the setup
synthesizer returns `none` below 20 candles or whenever ATR is 0. -/
theorem short_window_sentinels :
    ∀ (candles : List CandleData) (modality : TradeModality),
    (candles.length < 15 → calculateRSI candles 14 = 50) ∧
    (candles.length < 15 → calculateATR candles 14 = 0) ∧
    (candles.length < 10 → (detectBOS candles).detected = false) ∧
    (candles.length < 3 → (detectFVG candles).detected = false) ∧
    (candles.length < 5 → (detectOrderBlocks candles).detected = false) ∧
    (candles.length < 15 → (detectCHOCH candles).detected = false) ∧
    (candles.length < 20 → generateTradeSetup modality candles = none) ∧
    (calculateATR candles 14 = 0 → generateTradeSetup modality candles = none) := by
  intro candles modality
  refine ⟨fun h => ?_, fun h => ?_, fun h => ?_, fun h => ?_, fun h => ?_,
          fun h => ?_, fun h => ?_, fun h => ?_⟩
  · unfold calculateRSI; rw [if_pos (by omega)]
  · unfold calculateATR; rw [if_pos (by omega)]
  · unfold detectBOS; rw [if_pos (by omega)]
  · unfold detectFVG; rw [if_pos (by omega)]
  · unfold detectOrderBlocks; rw [if_pos (by omega)]
  · unfold detectCHOCH; rw [if_pos (by omega)]
  · unfold generateTradeSetup; rw [if_pos (by omega)]
  · unfold generateTradeSetup
    split_ifs <;> simp_all

/-- Witness for C4: the sentinels on the empty candle list, and the
synthesizer's `none` on 20 zero-range candles whose ATR is 0. -/
theorem short_window_sentinels_witness :
    calculateRSI [] 14 = 50 ∧ calculateATR [] 14 = 0 ∧
    (detectBOS []).detected = false ∧ (detectFVG []).detected = false ∧
    (detectOrderBlocks []).detected = false ∧ (detectCHOCH []).detected = false ∧
    generateTradeSetup TradeModality.Scalping [] = none ∧
    generateTradeSetup TradeModality.Scalping zeroRange20 = none :=
  ⟨(short_window_sentinels [] TradeModality.Scalping).1 (by decide),
   (short_window_sentinels [] TradeModality.Scalping).2.1 (by decide),
   (short_window_sentinels [] TradeModality.Scalping).2.2.1 (by decide),
   (short_window_sentinels [] TradeModality.Scalping).2.2.2.1 (by decide),
   (short_window_sentinels [] TradeModality.Scalping).2.2.2.2.1 (by decide),
   (short_window_sentinels [] TradeModality.Scalping).2.2.2.2.2.1 (by decide),
   (short_window_sentinels [] TradeModality.Scalping).2.2.2.2.2.2.1 (by decide),
   (short_window_sentinels zeroRange20 TradeModality.Scalping).2.2.2.2.2.2.2
     (by with_unfolding_all decide)⟩

/-! ### Ranker theorems (C6) -/

/-- Membership in `insertDesc` is membership in the inserted element or the
list. -/
theorem mem_insertDesc {y x : ScoredSymbol} {l : List ScoredSymbol} :
    y ∈ insertDesc x l ↔ y = x ∨ y ∈ l := by
  induction l with
  | nil => simp [insertDesc]
  | cons z zs ih =>
      unfold insertDesc
      split_ifs with h
      · simp
      · simp [ih, or_left_comm]

/-- `insertDesc` preserves the descending-score ordering. -/
theorem pairwise_insertDesc (x : ScoredSymbol) (l : List ScoredSymbol)
    (h : l.Pairwise (fun a b => b.score ≤ a.score)) :
    (insertDesc x l).Pairwise (fun a b => b.score ≤ a.score) := by
  induction l with
  | nil => simp [insertDesc]
  | cons z zs ih =>
      unfold insertDesc
      rcases List.pairwise_cons.1 h with ⟨hz, hzs⟩
      split_ifs with hle
      · exact List.pairwise_cons.2 ⟨fun w hw => by
          rcases List.mem_cons.1 hw with rfl | hw
          · exact hle
          · exact (hz w hw).trans hle, h⟩
      · refine List.pairwise_cons.2 ⟨fun w hw => ?_, ih hzs⟩
        rcases mem_insertDesc.1 hw with rfl | hw
        · exact le_of_not_le hle
        · exact hz w hw

/-- Stability of `insertDesc`: restricted to any one score value, inserting
puts the new element first exactly when it carries that score, since it only
passes strictly greater scores. -/
theorem filter_insertDesc (s : ℚ) (x : ScoredSymbol) (l : List ScoredSymbol) :
    (insertDesc x l).filter (fun z => decide (z.score = s)) =
      if x.score = s then x :: l.filter (fun z => decide (z.score = s))
      else l.filter (fun z => decide (z.score = s)) := by
  induction l with
  | nil => by_cases hxs : x.score = s <;> simp [insertDesc, hxs]
  | cons z zs ih =>
      unfold insertDesc
      by_cases hle : z.score ≤ x.score
      · rw [if_pos hle]
        by_cases hxs : x.score = s <;> by_cases hzs : z.score = s <;>
          simp [List.filter_cons, hxs, hzs]
      · rw [if_neg hle]
        by_cases hxs : x.score = s <;> by_cases hzs : z.score = s <;>
          first
            | exact absurd (le_of_eq (show z.score = x.score by rw [hzs, hxs])) hle
            | simp [List.filter_cons, hxs, hzs, ih]

/-- Stability of the stable descending sort: the subsequence carrying any
one score value is untouched, i.e. ties keep their input order. -/
theorem filter_sortDesc (s : ℚ) (l : List ScoredSymbol) :
    (sortDesc l).filter (fun z => decide (z.score = s)) =
      l.filter (fun z => decide (z.score = s)) := by
  induction l with
  | nil => rfl
  | cons x xs ih =>
      simp only [sortDesc, filter_insertDesc, ih, List.filter_cons]
      by_cases hxs : x.score = s <;> simp [hxs]

/-- The stable descending sort is sorted by descending score. -/
theorem pairwise_sortDesc (l : List ScoredSymbol) :
    (sortDesc l).Pairwise (fun a b => b.score ≤ a.score) := by
  induction l with
  | nil => simp [sortDesc]
  | cons x xs ih => exact pairwise_insertDesc x (sortDesc xs) ih

/-- The stable descending sort is a permutation membership-wise. -/
theorem mem_sortDesc {y : ScoredSymbol} {l : List ScoredSymbol} :
    y ∈ sortDesc l ↔ y ∈ l := by
  induction l with
  | nil => simp [sortDesc]
  | cons x xs ih => simp [sortDesc, mem_insertDesc, ih]

/-- Claim C6: for every scoring outcome, symbol list and limit, the ranker's
output is ordered by descending score, contains at most `limit` entries,
contains only successfully scored symbols (failed/null scores are simply
absent), equals the limit-truncated stable descending sort of the
input-order score list (so equal scores keep first-seen order, per
`filter_sortDesc`), and an empty symbol list yields the empty list. -/
theorem rankSymbols_ordering :
    ∀ (score : String → Option ScoredSymbol) (symbols : List String) (limit : ℕ),
    (scoreSymbolsForModality score symbols limit).Pairwise
      (fun a b => b.score ≤ a.score) ∧
    (scoreSymbolsForModality score symbols limit).length ≤ limit ∧
    (∀ x ∈ scoreSymbolsForModality score symbols limit,
      ∃ sym ∈ symbols, score sym = some x) ∧
    (∀ s : ℚ,
      (sortDesc (symbols.filterMap score)).filter (fun z => decide (z.score = s)) =
        (symbols.filterMap score).filter (fun z => decide (z.score = s))) ∧
    scoreSymbolsForModality score symbols limit =
      (sortDesc (symbols.filterMap score)).take limit ∧
    scoreSymbolsForModality score [] limit = [] := by
  intro score symbols limit
  refine ⟨?_, ?_, ?_, fun s => filter_sortDesc s _, rfl,
    by simp [scoreSymbolsForModality, sortDesc]⟩
  · exact (pairwise_sortDesc (symbols.filterMap score)).sublist
      (List.take_sublist limit _)
  · exact List.length_take_le limit _
  · intro x hx
    have hx2 : x ∈ symbols.filterMap score :=
      mem_sortDesc.1 (List.take_subset limit _ hx)
    rcases List.mem_filterMap.1 hx2 with ⟨sym, hsym, hs⟩
    exact ⟨sym, hsym, hs⟩

/-- A concrete scoring oracle for the ranker witness. -/
def scoreOracle (sym : String) : Option ScoredSymbol :=
  if sym = "AAA" then some { symbol := "AAA", score := 5 }
  else if sym = "BBB" then some { symbol := "BBB", score := 7 }
  else none

/-- Witness for C6: the provenance component applied to a concrete oracle,
symbol list and limit ("CCC" fails to score and is absent). -/
theorem rankSymbols_ordering_witness :
    ({ symbol := "BBB", score := 7 } : ScoredSymbol) ∈
      scoreSymbolsForModality scoreOracle ["AAA", "BBB", "CCC"] 2 ∧
    ∃ sym ∈ ["AAA", "BBB", "CCC"],
      scoreOracle sym = some ({ symbol := "BBB", score := 7 } : ScoredSymbol) :=
  ⟨by decide,
   (rankSymbols_ordering scoreOracle ["AAA", "BBB", "CCC"] 2).2.2.1
     { symbol := "BBB", score := 7 } (by decide)⟩

/-! ### Setup synthesizer algebra (C3, C5, C10) -/

/-- The per-pair true-range sum is nonnegative (each term dominates an
absolute value). -/
theorem trSum_nonneg (l : List CandleData) : 0 ≤ trSum l := by
  induction l with
  | nil => simp [trSum]
  | cons p rest ih =>
      cases rest with
      | nil => simp [trSum]
      | cons c rest2 =>
          have h1 : (0:ℚ) ≤ max (c.high - c.low) (max |c.high - p.close| |c.low - p.close|) :=
            le_trans (abs_nonneg (c.high - p.close))
              (le_trans (le_max_left _ _) (le_max_right _ _))
          exact add_nonneg h1 ih

/-- The ATR never goes negative, so the ATR ≠ 0 guard makes it positive. -/
theorem calculateATR_nonneg (candles : List CandleData) (period : ℕ) :
    0 ≤ calculateATR candles period := by
  unfold calculateATR
  split_ifs
  · exact le_refl 0
  · exact div_nonneg (trSum_nonneg _) (Nat.cast_nonneg _)

/-- Reward/risk quotient for a long placement at distances `x` (target) and
`y` (stop). -/
theorem ratio_long (e x y : ℚ) (hx : 0 ≤ x) (hy : 0 ≤ y) :
    |e + x - e| / |e - (e - y)| = x / y := by
  rw [show e + x - e = x by ring, show e - (e - y) = y by ring,
    abs_of_nonneg hx, abs_of_nonneg hy]

/-- Reward/risk quotient for a short placement. -/
theorem ratio_short (e x y : ℚ) (hx : 0 ≤ x) (hy : 0 ≤ y) :
    |e - x - e| / |e - (e + y)| = x / y := by
  rw [show e - x - e = -x by ring, show e - (e + y) = -y by ring, abs_neg, abs_neg,
    abs_of_nonneg hx, abs_of_nonneg hy]

/-- A long target at `k` stop-distances yields reward:risk exactly `k`. -/
theorem calcL (e atr k : ℚ) (hk : 0 ≤ k) (hatr : 0 < atr) :
    |e + atr * (3 / 2) * k - e| / |e - (e - atr * (3 / 2))| = k := by
  rw [ratio_long _ _ _ (by positivity) (by positivity),
    mul_comm (atr * (3 / 2)) k, mul_div_assoc,
    div_self (by positivity : atr * (3 / 2) ≠ 0), mul_one]

/-- A short target at `k` stop-distances yields reward:risk exactly `k`. -/
theorem calcS (e atr k : ℚ) (hk : 0 ≤ k) (hatr : 0 < atr) :
    |e - atr * (3 / 2) * k - e| / |e - (e + atr * (3 / 2))| = k := by
  rw [ratio_short _ _ _ (by positivity) (by positivity),
    mul_comm (atr * (3 / 2)) k, mul_div_assoc,
    div_self (by positivity : atr * (3 / 2) ≠ 0), mul_one]

/-- Exact reward:risk facts of the SMC setup math (part_002 and
aiTradeSelection.ts): the recorded `rrRatio` is the tp2-based quotient and
equals 5/2, while the tp1-based quotient is 3/2. -/
theorem smcSetupMath_rr (mo : TradeModality) (d : TradeDirection) (e atr : ℚ)
    (hatr : 0 < atr) :
    (smcSetupMath mo d e atr).entry = e ∧
    (smcSetupMath mo d e atr).rrRatio =
      |(smcSetupMath mo d e atr).tp2 - (smcSetupMath mo d e atr).entry| /
        |(smcSetupMath mo d e atr).entry - (smcSetupMath mo d e atr).stopLoss| ∧
    (smcSetupMath mo d e atr).rrRatio = 5 / 2 ∧
    |(smcSetupMath mo d e atr).tp1 - (smcSetupMath mo d e atr).entry| /
      |(smcSetupMath mo d e atr).entry - (smcSetupMath mo d e atr).stopLoss| = 3 / 2 := by
  cases d with
  | LONG =>
      exact ⟨rfl, rfl, calcL e atr (5 / 2) (by norm_num) hatr,
        calcL e atr (3 / 2) (by norm_num) hatr⟩
  | SHORT =>
      exact ⟨rfl, rfl, calcS e atr (5 / 2) (by norm_num) hatr,
        calcS e atr (3 / 2) (by norm_num) hatr⟩

/-- Every modality's stop multiplier is positive. -/
theorem atrMult_sl_pos (mo : TradeModality) : 0 < (getATRMultiplier mo).sl := by
  cases mo <;> norm_num [getATRMultiplier]

/-- Every modality's tp1 multiplier is exactly twice its stop multiplier. -/
theorem atrMult_tp1_eq (mo : TradeModality) :
    (getATRMultiplier mo).tp1 = 2 * (getATRMultiplier mo).sl := by
  cases mo <;> norm_num [getATRMultiplier]

/-- Exact reward:risk facts of the trendForecaster setup math: the recorded
`rrRatio` is the tp1-based quotient and equals 2 (so the risk-multiple
override, guarded by `rrRatio < 2`, never fires under exact arithmetic). -/
theorem trendSetupMath_rr (mo : TradeModality) (d : TradeDirection) (e atr : ℚ)
    (hatr : 0 < atr) :
    (trendSetupMath mo d e atr).entry = e ∧
    (trendSetupMath mo d e atr).rrRatio =
      |(trendSetupMath mo d e atr).tp1 - (trendSetupMath mo d e atr).entry| /
        |(trendSetupMath mo d e atr).entry - (trendSetupMath mo d e atr).stopLoss| ∧
    (trendSetupMath mo d e atr).rrRatio = 2 := by
  have hsl : 0 < (getATRMultiplier mo).sl := atrMult_sl_pos mo
  have hrp : 0 < atr * (getATRMultiplier mo).sl := mul_pos hatr hsl
  have hdiv : atr * (2 * (getATRMultiplier mo).sl) / (atr * (getATRMultiplier mo).sl) = 2 := by
    rw [show atr * (2 * (getATRMultiplier mo).sl) = 2 * (atr * (getATRMultiplier mo).sl) by ring,
      mul_div_assoc, div_self (ne_of_gt hrp), mul_one]
  cases d with
  | LONG =>
      simp only [trendSetupMath,
        if_pos (rfl : TradeDirection.LONG = TradeDirection.LONG), if_true, ite_true,
        atrMult_tp1_eq,
        show e - (e - atr * (getATRMultiplier mo).sl) = atr * (getATRMultiplier mo).sl by ring,
        show e + atr * (2 * (getATRMultiplier mo).sl) - e = atr * (2 * (getATRMultiplier mo).sl) by ring,
        abs_of_pos hrp, abs_of_pos (by positivity : (0:ℚ) < atr * (2 * (getATRMultiplier mo).sl))]
      rw [if_pos hrp]
      simp only [hdiv]
      rw [if_neg (by norm_num : ¬((2:ℚ) < 2))]
      simp
      rw [abs_of_pos (by positivity : (0:ℚ) < atr * (2 * (getATRMultiplier mo).sl)), hdiv]
  | SHORT =>
      simp only [trendSetupMath,
        if_neg (show ¬(TradeDirection.SHORT = TradeDirection.LONG) by decide),
        if_false, ite_false, atrMult_tp1_eq,
        show e - (e + atr * (getATRMultiplier mo).sl) = -(atr * (getATRMultiplier mo).sl) by ring,
        show e - atr * (2 * (getATRMultiplier mo).sl) - e = -(atr * (2 * (getATRMultiplier mo).sl)) by ring,
        abs_neg, abs_of_pos hrp,
        abs_of_pos (by positivity : (0:ℚ) < atr * (2 * (getATRMultiplier mo).sl))]
      rw [if_pos hrp]
      simp only [hdiv]
      rw [if_neg (by norm_num : ¬((2:ℚ) < 2))]
      simp
      rw [abs_of_pos (by positivity : (0:ℚ) < atr * (2 * (getATRMultiplier mo).sl)), hdiv]

/-- ATR = 0 forces `generateTradeSetup` to return `none` (helper shared by
the inversion lemmas; the C4 claim theorem states it independently). -/
theorem generateTradeSetup_none_of_atr {m : TradeModality} {candles : List CandleData}
    (h : calculateATR candles 14 = 0) : generateTradeSetup m candles = none := by
  simp only [generateTradeSetup]
  split_ifs <;> simp_all

/-- ATR = 0 forces `buildTradeSetupForSymbol` to return `none`. -/
theorem buildTradeSetupForSymbol_none_of_atr {m : TradeModality}
    {candles : List CandleData} (h : calculateATR candles 14 = 0) :
    buildTradeSetupForSymbol m candles = none := by
  simp only [buildTradeSetupForSymbol]
  split_ifs <;> simp_all

/-- Any setup returned by `generateTradeSetup` is the SMC setup math applied
to some direction and entry with the (positive) ATR of the candles. -/
theorem generateTradeSetup_inv {m : TradeModality} {candles : List CandleData}
    {s : TradeSetup} (h : generateTradeSetup m candles = some s) :
    0 < calculateATR candles 14 ∧
    ∃ d e, s = smcSetupMath m d e (calculateATR candles 14) := by
  have hz : calculateATR candles 14 ≠ 0 := by
    intro h0
    rw [generateTradeSetup_none_of_atr h0] at h
    exact Option.noConfusion h
  refine ⟨lt_of_le_of_ne (calculateATR_nonneg candles 14) (Ne.symm hz), ?_⟩
  simp only [generateTradeSetup] at h
  split_ifs at h <;>
    first
      | exact Option.noConfusion h
      | exact ⟨_, _, (Option.some.inj h).symm⟩

/-- Any setup returned by `buildTradeSetupForSymbol` is the trendForecaster
setup math applied to some direction and entry with the positive ATR. -/
theorem buildTradeSetupForSymbol_inv {m : TradeModality} {candles : List CandleData}
    {s : TradeSetup} (h : buildTradeSetupForSymbol m candles = some s) :
    0 < calculateATR candles 14 ∧
    ∃ d e, s = trendSetupMath m d e (calculateATR candles 14) := by
  have hz : calculateATR candles 14 ≠ 0 := by
    intro h0
    rw [buildTradeSetupForSymbol_none_of_atr h0] at h
    exact Option.noConfusion h
  refine ⟨lt_of_le_of_ne (calculateATR_nonneg candles 14) (Ne.symm hz), ?_⟩
  simp only [buildTradeSetupForSymbol] at h
  split_ifs at h <;>
    first
      | exact Option.noConfusion h
      | exact ⟨_, _, (Option.some.inj h).symm⟩

/-- A setup passing `buildTradeSetupFromSymbol`'s rejection guard is the one
`generateTradeSetup` computed. -/
theorem buildTradeSetupFromSymbol_inv {m : TradeModality} {candles : List CandleData}
    {s : TradeSetup} (h : buildTradeSetupFromSymbol m candles = some s) :
    generateTradeSetup m candles = some s := by
  cases hg : generateTradeSetup m candles with
  | none =>
      simp only [buildTradeSetupFromSymbol, hg] at h
      exact h
  | some s0 =>
      simp only [buildTradeSetupFromSymbol, hg] at h
      split_ifs at h
      exact h

/-- When both guards pass, `generateTradeSetup` always returns a setup. -/
theorem generateTradeSetup_isSome {m : TradeModality} {candles : List CandleData}
    (h20 : 20 ≤ candles.length) (hatr : calculateATR candles 14 ≠ 0) :
    ∃ s, generateTradeSetup m candles = some s := by
  cases hg : generateTradeSetup m candles with
  | some s => exact ⟨s, rfl⟩
  | none =>
      exfalso
      simp only [generateTradeSetup] at hg
      rw [if_neg (by omega), if_neg hatr] at hg
      exact Option.noConfusion hg

/-- Twenty candles with a 2-point range and flat closes: ATR is 2, no
structural signal fires, and the synthesizer returns a SHORT setup. -/
def rangeCandle : CandleData := ⟨100, 101, 99, 100, 1⟩

/-- Twenty copies of `rangeCandle` (window long enough, ATR positive). -/
def rangeCandles20 : List CandleData := List.replicate 20 rangeCandle

/-- Counterexample to claim C3: `generateTradeSetup` returns a setup whose
`rrRatio` (5/2, computed from tp2) differs from the tp1-based quotient
|tp1-entry|/|entry-stopLoss| (3/2), so `rrRatio` is not the tp1-based ratio
in every synthesizer variant. -/
theorem rr_uses_tp2_counterexample :
    ∃ s, generateTradeSetup TradeModality.Scalping rangeCandles20 = some s ∧
      s.rrRatio ≠ |s.tp1 - s.entry| / |s.entry - s.stopLoss| :=
  ⟨(generateTradeSetup TradeModality.Scalping rangeCandles20).getD default,
   by with_unfolding_all decide, by with_unfolding_all decide⟩

/-- Claim C3 (amended): the `rrRatio` recorded in a returned setup is
|tp2-entry|/|entry-stopLoss| in the `generateTradeSetup` and
`buildTradeSetupFromSymbol` variants, and |tp1-entry|/|entry-stopLoss|
(post-override values) in the trendForecaster variant. -/
theorem rr_field_per_variant :
    ∀ (m : TradeModality) (candles : List CandleData) (s : TradeSetup),
    (generateTradeSetup m candles = some s →
      s.rrRatio = |s.tp2 - s.entry| / |s.entry - s.stopLoss|) ∧
    (buildTradeSetupFromSymbol m candles = some s →
      s.rrRatio = |s.tp2 - s.entry| / |s.entry - s.stopLoss|) ∧
    (buildTradeSetupForSymbol m candles = some s →
      s.rrRatio = |s.tp1 - s.entry| / |s.entry - s.stopLoss|) := by
  intro m candles s
  refine ⟨fun h => ?_, fun h => ?_, fun h => ?_⟩
  · obtain ⟨hpos, d, e, rfl⟩ := generateTradeSetup_inv h
    exact (smcSetupMath_rr m d e _ hpos).2.1
  · obtain ⟨hpos, d, e, rfl⟩ := generateTradeSetup_inv (buildTradeSetupFromSymbol_inv h)
    exact (smcSetupMath_rr m d e _ hpos).2.1
  · obtain ⟨hpos, d, e, rfl⟩ := buildTradeSetupForSymbol_inv h
    exact (trendSetupMath_rr m d e _ hpos).2.1

/-- Claim C5: every returned setup satisfies the reward:risk floor
|tp1-entry|/|entry-stopLoss| ≥ 1.5 under exact rational arithmetic, in the
1.5-stop-distance variants (where the quotient is exactly 3/2) and in the
trendForecaster variant (where it is exactly 2). -/
theorem rr_floor :
    ∀ (m : TradeModality) (candles : List CandleData) (s : TradeSetup),
    (generateTradeSetup m candles = some s →
      3 / 2 ≤ |s.tp1 - s.entry| / |s.entry - s.stopLoss|) ∧
    (buildTradeSetupFromSymbol m candles = some s →
      3 / 2 ≤ |s.tp1 - s.entry| / |s.entry - s.stopLoss|) ∧
    (buildTradeSetupForSymbol m candles = some s →
      3 / 2 ≤ |s.tp1 - s.entry| / |s.entry - s.stopLoss|) := by
  intro m candles s
  refine ⟨fun h => ?_, fun h => ?_, fun h => ?_⟩
  · obtain ⟨hpos, d, e, rfl⟩ := generateTradeSetup_inv h
    rw [(smcSetupMath_rr m d e _ hpos).2.2.2]
  · obtain ⟨hpos, d, e, rfl⟩ := generateTradeSetup_inv (buildTradeSetupFromSymbol_inv h)
    rw [(smcSetupMath_rr m d e _ hpos).2.2.2]
  · obtain ⟨hpos, d, e, rfl⟩ := buildTradeSetupForSymbol_inv h
    rw [← (trendSetupMath_rr m d e _ hpos).2.1, (trendSetupMath_rr m d e _ hpos).2.2]
    norm_num

/-- Claim C10: in the 1.5-threshold variant every returned setup has
`rrRatio` exactly 5/2 (it is computed from tp2 at 2.5 stop-distances,
independent of ATR, modality and direction), and whenever the candle-count
and ATR guards pass, `buildTradeSetupFromSymbol` returns a setup — its
rejection branch guarded by `rrRatio < 1.5` is unreachable. -/
theorem rr_constant_25 :
    ∀ (m : TradeModality) (candles : List CandleData),
    (∀ s, generateTradeSetup m candles = some s → s.rrRatio = 5 / 2) ∧
    (∀ s, buildTradeSetupFromSymbol m candles = some s → s.rrRatio = 5 / 2) ∧
    (20 ≤ candles.length → calculateATR candles 14 ≠ 0 →
      ∃ s, buildTradeSetupFromSymbol m candles = some s) := by
  intro m candles
  refine ⟨fun s h => ?_, fun s h => ?_, fun h20 hatr => ?_⟩
  · obtain ⟨hpos, d, e, rfl⟩ := generateTradeSetup_inv h
    exact (smcSetupMath_rr m d e _ hpos).2.2.1
  · obtain ⟨hpos, d, e, rfl⟩ := generateTradeSetup_inv (buildTradeSetupFromSymbol_inv h)
    exact (smcSetupMath_rr m d e _ hpos).2.2.1
  · obtain ⟨s, hs⟩ := generateTradeSetup_isSome (m := m) h20 hatr
    obtain ⟨hpos, d, e, he⟩ := generateTradeSetup_inv hs
    refine ⟨s, ?_⟩
    simp only [buildTradeSetupFromSymbol, hs]
    rw [if_neg]
    rw [he, (smcSetupMath_rr m d e _ hpos).2.2.1]
    norm_num

/-- The setup `generateTradeSetup` produces on `rangeCandles20`. -/
def smcSetupCex : TradeSetup :=
  (generateTradeSetup TradeModality.Scalping rangeCandles20).getD default

/-- The setup `buildTradeSetupForSymbol` produces on `rangeCandles20`. -/
def trendSetupCex : TradeSetup :=
  (buildTradeSetupForSymbol TradeModality.Scalping rangeCandles20).getD default

/-- Witness for the amended C3 at the concrete range candles. -/
theorem rr_field_per_variant_witness :
    smcSetupCex.rrRatio =
      |smcSetupCex.tp2 - smcSetupCex.entry| /
        |smcSetupCex.entry - smcSetupCex.stopLoss| ∧
    trendSetupCex.rrRatio =
      |trendSetupCex.tp1 - trendSetupCex.entry| /
        |trendSetupCex.entry - trendSetupCex.stopLoss| :=
  ⟨(rr_field_per_variant TradeModality.Scalping rangeCandles20 smcSetupCex).1
     (by with_unfolding_all decide),
   (rr_field_per_variant TradeModality.Scalping rangeCandles20 trendSetupCex).2.2
     (by with_unfolding_all decide)⟩

/-- Witness for C5 at the concrete range candles. -/
theorem rr_floor_witness :
    3 / 2 ≤ |smcSetupCex.tp1 - smcSetupCex.entry| /
      |smcSetupCex.entry - smcSetupCex.stopLoss| ∧
    3 / 2 ≤ |trendSetupCex.tp1 - trendSetupCex.entry| /
      |trendSetupCex.entry - trendSetupCex.stopLoss| :=
  ⟨(rr_floor TradeModality.Scalping rangeCandles20 smcSetupCex).1
     (by with_unfolding_all decide),
   (rr_floor TradeModality.Scalping rangeCandles20 trendSetupCex).2.2
     (by with_unfolding_all decide)⟩

/-- Witness for C10 at the concrete range candles. -/
theorem rr_constant_25_witness :
    smcSetupCex.rrRatio = 5 / 2 ∧
    ∃ s, buildTradeSetupFromSymbol TradeModality.Scalping rangeCandles20 = some s :=
  ⟨(rr_constant_25 TradeModality.Scalping rangeCandles20).1 smcSetupCex
     (by with_unfolding_all decide),
   (rr_constant_25 TradeModality.Scalping rangeCandles20).2.2
     (by decide) (by with_unfolding_all decide)⟩

/-! ### Order-block scan direction (C8) -/

/-- A zero-range candle for the order-block examples (never strong). -/
def flatOb : CandleData := ⟨100, 100, 100, 100, 1⟩

/-- Eight candles with two qualifying bullish order blocks: an older one at
index 2 (strong bearish candle, midpoint 95) and a newer one at index 4
(midpoint 195), both immediately confirmed by the next candle. -/
def obCandles : List CandleData :=
  [flatOb, flatOb, ⟨100, 101, 89, 90, 1⟩, ⟨95, 106, 94, 105, 1⟩,
   ⟨200, 201, 189, 190, 1⟩, ⟨195, 206, 194, 205, 1⟩, flatOb, flatOb]

/-- Eight candles with a single qualifying order block at index 2 and no
qualifying index above it. -/
def obCandles2 : List CandleData :=
  [flatOb, flatOb, ⟨100, 101, 89, 90, 1⟩, ⟨95, 106, 94, 105, 1⟩,
   flatOb, flatOb, flatOb, flatOb]

/-- Counterexample to claim C8: on `obCandles` indices 2 and 4 both qualify,
and `detectOrderBlocks` returns the newer block at index 4 (midpoint 195),
not the oldest qualifying block (midpoint 95) the claim predicts. -/
theorem ob_scan_direction_counterexample :
    isOrderBlockAt (lastN 20 obCandles) 2 =
      some { detected := true, direction := some SigDir.bullish,
             top := 100, bottom := 90, midpoint := 95 } ∧
    isOrderBlockAt (lastN 20 obCandles) 4 =
      some { detected := true, direction := some SigDir.bullish,
             top := 200, bottom := 190, midpoint := 195 } ∧
    detectOrderBlocks obCandles =
      { detected := true, direction := some SigDir.bullish,
        top := 200, bottom := 190, midpoint := 195 } ∧
    detectOrderBlocks obCandles ≠
      { detected := true, direction := some SigDir.bullish,
        top := 100, bottom := 90, midpoint := 95 } := by
  refine ⟨?_, ?_, ?_, ?_⟩ <;> with_unfolding_all decide

/-- `List.findSome?` over the descending index list returns `f i` when all
indices above `i` yield `none`. -/
theorem findSome_downFromAux {α : Type} (f : ℕ → Option α) (r : α) :
    ∀ (n hi i : ℕ), i ≤ hi → hi < i + n → f i = some r →
      (∀ j, i < j → j ≤ hi → f j = none) →
      (downFromAux n hi).findSome? f = some r := by
  intro n
  induction n with
  | zero => intro hi i h1 h2 _ _; omega
  | succ n ih =>
      intro hi i h1 h2 hf hnone
      unfold downFromAux
      by_cases hih : i = hi
      · subst hih
        simp [List.findSome?_cons, hf]
      · have hhi : f hi = none := hnone hi (lt_of_le_of_ne h1 hih) le_rfl
        simp only [List.findSome?_cons, hhi]
        exact ih (hi - 1) i (by omega) (by omega) hf
          (fun j hj1 hj2 => hnone j hj1 (by omega))

/-- Claim C8 (amended): `detectOrderBlocks` scans the last-20 window from
index `recent.length - 4` DOWN to 1 — newer toward older — and returns the
first match found, i.e. the NEWEST qualifying order block in the window
(whenever index `i` qualifies and no index above it does, the result is the
block at `i`). -/
theorem detectOrderBlocks_newest_first :
    ∀ (candles : List CandleData) (i : ℕ) (r : OrderBlockResult),
    5 ≤ candles.length →
    1 ≤ i → i ≤ (lastN 20 candles).length - 4 →
    isOrderBlockAt (lastN 20 candles) i = some r →
    (∀ j, i < j → j ≤ (lastN 20 candles).length - 4 →
      isOrderBlockAt (lastN 20 candles) j = none) →
    detectOrderBlocks candles = r := by
  intro candles i r h5 h1 hi hf hnone
  have hrl : (lastN 20 candles).length = candles.length - (candles.length - 20) := by
    simp [lastN]
  have hdf : downFrom ((lastN 20 candles).length - 4) 1 =
      downFromAux ((lastN 20 candles).length - 4) ((lastN 20 candles).length - 4) := by
    unfold downFrom
    congr 1
  simp only [detectOrderBlocks]
  rw [if_neg (by omega), hdf, findSome_downFromAux (isOrderBlockAt (lastN 20 candles)) r
    ((lastN 20 candles).length - 4) ((lastN 20 candles).length - 4) i hi (by omega) hf hnone]
  rfl

/-- Witness for the amended C8: on `obCandles2` only index 2 qualifies
(indices 3 and 4 yield none) and the detector returns exactly that block. -/
theorem detectOrderBlocks_newest_first_witness :
    detectOrderBlocks obCandles2 =
      { detected := true, direction := some SigDir.bullish,
        top := 100, bottom := 90, midpoint := 95 } := by
  refine detectOrderBlocks_newest_first obCandles2 2 _ (by decide) (by decide)
    (by decide) (by with_unfolding_all decide) ?_
  intro j hj1 hj2
  have h4 : (lastN 20 obCandles2).length - 4 = 4 := by decide
  rw [h4] at hj2
  interval_cases j <;> with_unfolding_all decide

end CollieTrader
